import Mathlib

/-!
Shallow embedding of `src/django_iam_dbauth/aws/database_wrapper.py`.

The module holds a token cache (`TokenCache`) keyed by the connection
identity `(hostname, port, username, region_name)` and a parameter
resolver `get_aws_connection_params`.  Python dictionaries of
connection parameters are modelled as finite partial maps
`String → Option Value`; `time.time()` is modelled as an explicit
integer timestamp passed to every operation; the boto3 client and the
token-generation network call are modelled as an oracle record
(`AwsEnv`) whose operations may fail (`Except`), mirroring exception
propagation.  `getpass.getuser()` is the explicit argument `osUser`.
-/

namespace DbWrapper

/-- A Python value as it occurs in a connection-parameter dict:
strings, integers, booleans or `None`. -/
inductive Value where
  | vstr : String → Value
  | vint : Int → Value
  | vbool : Bool → Value
  | vnone : Value
deriving DecidableEq, Repr

/-- Python truthiness of a `Value`: `None`, `False`, `0` and `""` are
falsy, everything else is truthy. -/
def Value.truthy : Value → Bool
  | .vstr s => s ≠ ""
  | .vint n => n ≠ 0
  | .vbool b => b
  | .vnone => false

/-- Truthiness of an optional value, as tested by `if not enabled:` on
the result of `params.pop("use_iam_auth", None)`: absent means `None`,
hence falsy. -/
def pyTruthy : Option Value → Bool
  | none => false
  | some v => v.truthy

/-- Truthiness of an `Optional[str]`, as tested by `if cached_token:`:
`None` and the empty string are falsy. -/
def pyTruthyStr : Option String → Bool
  | none => false
  | some s => s ≠ ""

/-- A connection-parameter dict (`Dict[str, Any]`), as a partial map
from keys to values. -/
def Params := String → Option Value

/-- `params[k]` lookup returning `None` when absent (`dict.get(k)`). -/
def Params.get (p : Params) (k : String) : Option Value := p k

/-- `params.get(k, d)`: lookup with default. -/
def Params.getD (p : Params) (k : String) (d : Value) : Value := (p k).getD d

/-- Removal of a key, the effect on the dict of `params.pop(k, None)`. -/
def Params.erase (p : Params) (k : String) : Params :=
  fun k' => if k' = k then none else p k'

/-- `params[k] = v`: insertion / overwrite of a key. -/
def Params.insert (p : Params) (k : String) (v : Value) : Params :=
  fun k' => if k' = k then some v else p k'

/-- The dict with no keys. -/
def Params.empty : Params := fun _ => none

/-- A cache key: the tuple `(hostname, port, username, region_name)`
built at line 66 of the source. -/
abbrev Key := Value × Value × Value × Value

/-- `TokenCache._cache`: a `Dict[Tuple, Tuple[str, float]]`, modelled
as a partial map from keys to (token, expiration) pairs.  Timestamps
are integers. -/
def Cache := Key → Option (String × Int)

/-- The empty cache, the state built by `TokenCache.__init__`. -/
def Cache.empty : Cache := fun _ => none

/-- Deletion of one cache entry (`del self._cache[key]`). -/
def Cache.erase (c : Cache) (key : Key) : Cache :=
  fun k => if k = key then none else c k

/-- `TOKEN_EXPIRATION_TIME = 10 * 60` (line 12 of the source). -/
def TOKEN_EXPIRATION_TIME : Int := 10 * 60

/-- `TokenCache.get_token` (lines 31–39): given the current time, the
cache contents and a key, return the cached token if the entry exists
and is still valid (`now < expiration`), otherwise delete any stale
entry and return `None`.  The lock is irrelevant in this sequential
model; the method both returns an optional token and yields the
(possibly evicted) cache state. -/
def TokenCache.get_token (now : Int) (cache : Cache) (key : Key) :
    Option String × Cache :=
  match cache key with
  | some (token, expiration) =>
      if now < expiration then (some token, cache)
      else (none, cache.erase key)
  | none => (none, cache)

/-- `TokenCache.set_token` (lines 41–44): store
`(token, time.time() + TOKEN_EXPIRATION_TIME - 30)` under `key`. -/
def TokenCache.set_token (now : Int) (cache : Cache) (key : Key)
    (token : String) : Cache :=
  fun k => if k = key then some (token, now + TOKEN_EXPIRATION_TIME - 30)
           else cache k

/-- The external AWS collaborators, as oracles over an abstract error
type `ε` and client-handle type `χ`: `_get_rds_client(region_name)`
(client/session construction, lines 14–24, may raise) and
`client.generate_db_auth_token(DBHostname, Port, DBUsername)`
(the token-generation network call, lines 76–80, may raise). -/
structure AwsEnv (ε χ : Type) where
  get_rds_client : Value → Except ε χ
  generate_db_auth_token : χ → Value → Value → Value → Except ε String

/-- The connection identity derived at lines 60–66 of the source, from
the dict as it stands after popping `use_iam_auth`:
`hostname = params.get("host", "localhost")`,
`port = params.get("port", 5432)`,
`username = params.get("user") or getpass.getuser()` (Python `or`:
the explicit user only when truthy), and `region_name` as read by
`params.pop("region_name", None)`. -/
def derive_cache_key (osUser : String) (params1 : Params) : Key :=
  let region_name := (params1.get "region_name").getD .vnone
  let params2 := params1.erase "region_name"
  let hostname := params2.getD "host" (.vstr "localhost")
  let port := params2.getD "port" (.vint 5432)
  let u := (params2.get "user").getD .vnone
  let username := if u.truthy then u else .vstr osUser
  (hostname, port, username, region_name)

/-- `get_aws_connection_params` (lines 49–86).  The Python function
copies its argument, so it is pure in the input dict; the global
`_token_cache` state is threaded explicitly: the function takes the
cache before the call and returns the cache after it, together with
either the resulting dict or the propagated exception.  The locals
`region_name`, `hostname`, `port` and `username` of lines 60–63 are
the four components of `derive_cache_key`, which transcribes those
lines; here they are recovered as projections of the key. -/
def get_aws_connection_params {ε χ : Type} (env : AwsEnv ε χ)
    (osUser : String) (now : Int) (cache : Cache) (params0 : Params) :
    Except ε Params × Cache :=
  -- enabled = params.pop("use_iam_auth", None)
  let enabled := params0.get "use_iam_auth"
  let params1 := params0.erase "use_iam_auth"
  if pyTruthy enabled = false then
    (.ok params1, cache)
  else
    -- region_name = params.pop("region_name", None); hostname, port,
    -- username as at lines 61-63; cache_key = (hostname, port, username,
    -- region_name)
    let params2 := params1.erase "region_name"
    let cache_key : Key := derive_cache_key osUser params1
    -- cached_token = _token_cache.get_token(cache_key)
    let looked := TokenCache.get_token now cache cache_key
    let cached_token := looked.1
    let cache1 := looked.2
    if pyTruthyStr cached_token = true then
      (.ok (params2.insert "password" (.vstr (cached_token.getD ""))), cache1)
    else
      -- rds_client = _get_rds_client(region_name)
      match env.get_rds_client cache_key.2.2.2 with
      | .error e => (.error e, cache1)
      | .ok rds_client =>
          -- token = rds_client.generate_db_auth_token(
          --     DBHostname=hostname, Port=port, DBUsername=username)
          match env.generate_db_auth_token rds_client
              cache_key.1 cache_key.2.1 cache_key.2.2.1 with
          | .error e => (.error e, cache1)
          | .ok token =>
              (.ok (params2.insert "password" (.vstr token)),
               TokenCache.set_token now cache1 cache_key token)

/-! ### Basic lemmas about the dict and cache operations -/

@[simp]
theorem Params.get_erase (p : Params) (k k' : String) :
    (p.erase k).get k' = if k' = k then none else p.get k' := rfl

@[simp]
theorem Params.get_insert (p : Params) (k k' : String) (v : Value) :
    (p.insert k v).get k' = if k' = k then some v else p.get k' := rfl

@[simp]
theorem Cache.erase_apply (c : Cache) (key k : Key) :
    c.erase key k = if k = key then none else c k := rfl

@[simp]
theorem TokenCache.set_token_apply (now : Int) (c : Cache) (key k : Key)
    (token : String) :
    TokenCache.set_token now c key token k
      = if k = key then some (token, now + TOKEN_EXPIRATION_TIME - 30)
        else c k := rfl

theorem TokenCache.get_token_hit (now : Int) (c : Cache) (key : Key)
    (t : String) (e : Int) (h : c key = some (t, e)) (hlt : now < e) :
    TokenCache.get_token now c key = (some t, c) := by
  simp [TokenCache.get_token, h, hlt]

theorem TokenCache.get_token_fst_some (now : Int) (c : Cache) (key : Key)
    (t : String) (h : (TokenCache.get_token now c key).1 = some t) :
    ∃ e, c key = some (t, e) ∧ now < e ∧
      (TokenCache.get_token now c key).2 = c := by
  unfold TokenCache.get_token at *
  rcases hc : c key with _ | ⟨t', e⟩ <;> simp [hc] at h
  by_cases hlt : now < e <;> simp [hlt] at h
  exact ⟨e, by simp [hc, h, hlt]⟩

/-- Scratch consistency checks are kept as anonymous examples. -/
def env0 : AwsEnv Unit Unit :=
  { get_rds_client := fun _ => .ok ()
    generate_db_auth_token := fun _ _ _ _ => .ok "T" }

def key0 : Key := (.vstr "localhost", .vint 5432, .vstr "alice", .vnone)

def p0 : Params := fun k => if k = "use_iam_auth" then some (.vbool true) else none

example : (get_aws_connection_params env0 "alice" 0 Cache.empty p0).2 key0
    = some ("T", 570) := by decide

example :
    ((get_aws_connection_params env0 "alice" 0 Cache.empty p0).1.toOption.map
      (fun out => out.get "password")) = some (some (.vstr "T")) := by decide

example : derive_cache_key "alice" (p0.erase "use_iam_auth") = key0 := by decide

/-! ### Path lemmas for `get_aws_connection_params` -/

/-- The dict the enabled path returns, before `password` is set: the
input minus `use_iam_auth` and `region_name`. -/
def stripped (params : Params) : Params :=
  (params.erase "use_iam_auth").erase "region_name"

theorem gacp_disabled {ε χ : Type} (env : AwsEnv ε χ) (osUser : String)
    (now : Int) (c : Cache) (params : Params)
    (hen : pyTruthy (params.get "use_iam_auth") = false) :
    get_aws_connection_params env osUser now c params
      = (.ok (params.erase "use_iam_auth"), c) := by
  unfold get_aws_connection_params
  simp [hen]

theorem gacp_hit {ε χ : Type} (env : AwsEnv ε χ) (osUser : String)
    (now : Int) (c : Cache) (params : Params) (t : String)
    (hen : pyTruthy (params.get "use_iam_auth") = true)
    (hget : (TokenCache.get_token now c
        (derive_cache_key osUser (params.erase "use_iam_auth"))).1 = some t)
    (ht : t ≠ "") :
    get_aws_connection_params env osUser now c params
      = (.ok ((stripped params).insert "password" (.vstr t)), c) := by
  obtain ⟨e, hc, hlt, hsnd⟩ := TokenCache.get_token_fst_some now c _ t hget
  unfold get_aws_connection_params
  simp [hen, hget, hsnd, pyTruthyStr, ht, stripped]

theorem gacp_miss_client_err {ε χ : Type} (env : AwsEnv ε χ) (osUser : String)
    (now : Int) (c : Cache) (params : Params) (e : ε)
    (hen : pyTruthy (params.get "use_iam_auth") = true)
    (hmiss : pyTruthyStr (TokenCache.get_token now c
        (derive_cache_key osUser (params.erase "use_iam_auth"))).1 = false)
    (hcl : env.get_rds_client
        (derive_cache_key osUser (params.erase "use_iam_auth")).2.2.2 = .error e) :
    get_aws_connection_params env osUser now c params
      = (.error e, (TokenCache.get_token now c
          (derive_cache_key osUser (params.erase "use_iam_auth"))).2) := by
  unfold get_aws_connection_params
  simp [hen, hmiss, hcl]

theorem gacp_miss_gen_err {ε χ : Type} (env : AwsEnv ε χ) (osUser : String)
    (now : Int) (c : Cache) (params : Params) (cl : χ) (e : ε)
    (hen : pyTruthy (params.get "use_iam_auth") = true)
    (hmiss : pyTruthyStr (TokenCache.get_token now c
        (derive_cache_key osUser (params.erase "use_iam_auth"))).1 = false)
    (hcl : env.get_rds_client
        (derive_cache_key osUser (params.erase "use_iam_auth")).2.2.2 = .ok cl)
    (hgen : env.generate_db_auth_token cl
        (derive_cache_key osUser (params.erase "use_iam_auth")).1
        (derive_cache_key osUser (params.erase "use_iam_auth")).2.1
        (derive_cache_key osUser (params.erase "use_iam_auth")).2.2.1 = .error e) :
    get_aws_connection_params env osUser now c params
      = (.error e, (TokenCache.get_token now c
          (derive_cache_key osUser (params.erase "use_iam_auth"))).2) := by
  unfold get_aws_connection_params
  simp [hen, hmiss, hcl, hgen]

theorem gacp_miss_gen_ok {ε χ : Type} (env : AwsEnv ε χ) (osUser : String)
    (now : Int) (c : Cache) (params : Params) (cl : χ) (tok : String)
    (hen : pyTruthy (params.get "use_iam_auth") = true)
    (hmiss : pyTruthyStr (TokenCache.get_token now c
        (derive_cache_key osUser (params.erase "use_iam_auth"))).1 = false)
    (hcl : env.get_rds_client
        (derive_cache_key osUser (params.erase "use_iam_auth")).2.2.2 = .ok cl)
    (hgen : env.generate_db_auth_token cl
        (derive_cache_key osUser (params.erase "use_iam_auth")).1
        (derive_cache_key osUser (params.erase "use_iam_auth")).2.1
        (derive_cache_key osUser (params.erase "use_iam_auth")).2.2.1 = .ok tok) :
    get_aws_connection_params env osUser now c params
      = (.ok ((stripped params).insert "password" (.vstr tok)),
         TokenCache.set_token now
           (TokenCache.get_token now c
             (derive_cache_key osUser (params.erase "use_iam_auth"))).2
           (derive_cache_key osUser (params.erase "use_iam_auth")) tok) := by
  unfold get_aws_connection_params
  simp [hen, hmiss, hcl, hgen, stripped]

/-- The token `get_token` hands back for a key depends only on the
cache contents at that key. -/
theorem get_token_fst_congr (now : Int) (c c' : Cache) (key : Key)
    (h : c key = c' key) :
    (TokenCache.get_token now c key).1 = (TokenCache.get_token now c' key).1 := by
  unfold TokenCache.get_token
  rw [h]
  rcases c' key with _ | ⟨t, e⟩
  · rfl
  · by_cases hlt : now < e <;> simp [hlt]

/-- The dict (or error) a resolver call returns depends on the cache
only through its contents at the derived identity. -/
theorem gacp_fst_congr {ε χ : Type} (env : AwsEnv ε χ) (osUser : String)
    (now : Int) (c c' : Cache) (params : Params)
    (h : c (derive_cache_key osUser (params.erase "use_iam_auth"))
       = c' (derive_cache_key osUser (params.erase "use_iam_auth"))) :
    (get_aws_connection_params env osUser now c params).1
      = (get_aws_connection_params env osUser now c' params).1 := by
  have hfst := get_token_fst_congr now c c'
    (derive_cache_key osUser (params.erase "use_iam_auth")) h
  by_cases hen : pyTruthy (params.get "use_iam_auth") = false
  · simp [get_aws_connection_params, hen]
  · replace hen : pyTruthy (params.get "use_iam_auth") = true := by
      revert hen; cases pyTruthy (params.get "use_iam_auth") <;> simp
    by_cases hhit : pyTruthyStr (TokenCache.get_token now c'
        (derive_cache_key osUser (params.erase "use_iam_auth"))).1 = true
    · simp [get_aws_connection_params, hen, hhit, hfst]
    · rcases hcl : env.get_rds_client
          (derive_cache_key osUser (params.erase "use_iam_auth")).2.2.2 with e | cl
      · simp [get_aws_connection_params, hen, hhit, hfst, hcl]
      · rcases hgen : env.generate_db_auth_token cl
            (derive_cache_key osUser (params.erase "use_iam_auth")).1
            (derive_cache_key osUser (params.erase "use_iam_auth")).2.1
            (derive_cache_key osUser (params.erase "use_iam_auth")).2.2.1 with e | tok <;>
          simp [get_aws_connection_params, hen, hhit, hfst, hcl, hgen]

/-! ### Concrete values used by witnesses and counterexamples -/

/-- A dict holding only a region override. -/
def pReg : Params :=
  fun k => if k = "region_name" then some (.vstr "us-east-1") else none

/-- A cache holding one entry for `key0`: token `"tok"`, expiry 570. -/
def c0 : Cache := fun k => if k = key0 then some ("tok", 570) else none

/-! ### Claims -/

/-- C5: `TokenCache.set_token` stores under the key the pair
`(token, now + TOKEN_EXPIRATION_TIME - 30)`, where the nominal lifetime
constant `TOKEN_EXPIRATION_TIME` is 600 seconds and the subtracted
safety margin is 30 seconds, so every stored expiry equals the store
time plus 570 seconds; all other entries are left as they were. -/
theorem set_token_expiry_bookkeeping (now : Int) (cache : Cache)
    (key : Key) (token : String) :
    TOKEN_EXPIRATION_TIME = 600 ∧
    TokenCache.set_token now cache key token
      = fun k => if k = key then some (token, now + 570) else cache k := by
  refine ⟨rfl, funext fun k => ?_⟩
  simp only [TokenCache.set_token, TOKEN_EXPIRATION_TIME]
  have h570 : now + 10 * 60 - 30 = now + 570 := by omega
  rw [h570]

/-- C3: `TokenCache.get_token` returns a token only when an entry for
the key is present and the current time is strictly below its stored
expiration — and then it returns that entry's token with the cache
untouched; in every other case it returns `none` and any stale entry
for the key is removed. -/
theorem get_token_freshness_invariant (now : Int) (cache : Cache) (key : Key) :
    (∀ t, (TokenCache.get_token now cache key).1 = some t →
       ∃ e, cache key = some (t, e) ∧ now < e ∧
         (TokenCache.get_token now cache key).2 = cache) ∧
    ((∀ t e, cache key = some (t, e) → ¬ now < e) →
       TokenCache.get_token now cache key = (none, cache.erase key)) := by
  constructor
  · exact fun t h =>
      let ⟨e, hc, hlt, hsnd⟩ := TokenCache.get_token_fst_some now cache key t h
      ⟨e, hc, hlt, hsnd⟩
  · intro hstale
    unfold TokenCache.get_token
    rcases hc : cache key with _ | ⟨t, e⟩
    · have herase : cache.erase key = cache := funext fun k => by
        by_cases hk : k = key
        · subst hk; simp [Cache.erase, hc]
        · simp [Cache.erase, hk]
      rw [herase]
    · simp [hstale t e hc]

/-- C2: with `use_iam_auth` absent or falsy, the resolver returns the
input dict with only `use_iam_auth` removed — every other binding, in
particular `region_name`, unchanged — and with the cache returned
untouched, uniformly in the oracle and in the cache contents: no token
generation, cache read or cache write occurs. -/
theorem passthrough_verbatim {ε χ : Type} (env : AwsEnv ε χ)
    (osUser : String) (now : Int) (cache : Cache) (params : Params)
    (h : pyTruthy (params.get "use_iam_auth") = false) :
    get_aws_connection_params env osUser now cache params
      = (.ok (params.erase "use_iam_auth"), cache) ∧
    (params.erase "use_iam_auth").get "use_iam_auth" = none ∧
    ∀ k, k ≠ "use_iam_auth" → (params.erase "use_iam_auth").get k = params.get k := by
  refine ⟨gacp_disabled env osUser now cache params h, by simp, fun k hk => by simp [hk]⟩

/-- Witness for C2: the dict `{region_name: "us-east-1"}` (no
`use_iam_auth`) passes through with `region_name` retained. -/
theorem passthrough_verbatim_witness :
    get_aws_connection_params env0 "alice" 0 Cache.empty pReg
      = (.ok (pReg.erase "use_iam_auth"), Cache.empty) ∧
    (pReg.erase "use_iam_auth").get "region_name" = some (.vstr "us-east-1") := by
  have h := passthrough_verbatim env0 "alice" 0 Cache.empty pReg (by decide)
  exact ⟨h.1, h.2.2 "region_name" (by decide)⟩

/-- Key differing from `key0` only in the port (5433 instead of 5432). -/
def key1 : Key := (.vstr "localhost", .vint 5433, .vstr "alice", .vnone)

/-- C6: distinct connection identities have independent cache entries:
storing a token under `k1` leaves both the entry at any other key `k2`
and the token `get_token` returns for `k2` unchanged, and the dict (or
error) returned by a resolver call whose derived identity is `k2` is
unaffected by the stored entry.  The cache key is exactly the
four-tuple, so keys differing only in the port are distinct. -/
theorem identity_discrimination (now now' : Int) (c : Cache)
    (k1 k2 : Key) (tok : String) (hne : k1 ≠ k2) :
    TokenCache.set_token now c k1 tok k2 = c k2 ∧
    (TokenCache.get_token now' (TokenCache.set_token now c k1 tok) k2).1
      = (TokenCache.get_token now' c k2).1 ∧
    ∀ (ε χ : Type) (env : AwsEnv ε χ) (osUser : String) (params : Params),
      derive_cache_key osUser (params.erase "use_iam_auth") = k2 →
      (get_aws_connection_params env osUser now'
          (TokenCache.set_token now c k1 tok) params).1
        = (get_aws_connection_params env osUser now' c params).1 := by
  have hvalue : TokenCache.set_token now c k1 tok k2 = c k2 := by
    simp [TokenCache.set_token, Ne.symm hne]
  refine ⟨hvalue, get_token_fst_congr now' _ c k2 hvalue, ?_⟩
  intro ε χ env osUser params hk
  exact gacp_fst_congr env osUser now' _ c params (by rw [hk]; exact hvalue)

/-- Witness for C6 at the two identities differing only in the port:
a token stored under port 5432 is invisible at port 5433. -/
theorem identity_discrimination_witness :
    TokenCache.set_token 0 Cache.empty key0 "T" key1 = Cache.empty key1 ∧
    (TokenCache.get_token 10 (TokenCache.set_token 0 Cache.empty key0 "T") key1).1
      = (TokenCache.get_token 10 Cache.empty key1).1 :=
  ⟨(identity_discrimination 0 10 Cache.empty key0 key1 "T" (by decide)).1,
   (identity_discrimination 0 10 Cache.empty key0 key1 "T" (by decide)).2.1⟩

/-- The connection identity as claim C7 describes it, amended only in
the username rule: the explicit `user` value is used when it is truthy,
and the OS user is substituted when `user` is absent **or falsy**
(the source's `params.get("user") or getpass.getuser()`). -/
def claimed_identity (osUser : String)
    (host port user region : Option Value) : Key :=
  (host.getD (.vstr "localhost"),
   port.getD (.vint 5432),
   (if (user.getD .vnone).truthy then user.getD .vnone else .vstr osUser),
   region.getD .vnone)

/-- C7 (amended: the OS user is substituted when the `user` parameter
is absent or falsy, not only when absent): the identity the resolver
derives is built from `host` (default `"localhost"`), `port` (default
`5432`), the truthiness-filtered `user`, and `region_name` (default
absent); in particular `{use_iam_auth: true}` alone derives
`("localhost", 5432, <OS user>, None)`. -/
theorem identity_derivation_defaults (osUser : String) (params : Params) :
    derive_cache_key osUser params
      = claimed_identity osUser (params.get "host") (params.get "port")
          (params.get "user") (params.get "region_name") ∧
    derive_cache_key osUser (p0.erase "use_iam_auth")
      = (.vstr "localhost", .vint 5432, .vstr osUser, .vnone) := by
  constructor
  · simp [derive_cache_key, claimed_identity, Params.getD, Params.get, Params.erase]
  · simp [derive_cache_key, p0, Params.getD, Params.get, Params.erase, Value.truthy]

/-- The dict `{use_iam_auth: true, user: ""}`. -/
def pUserEmpty : Params :=
  fun k => if k = "use_iam_auth" then some (.vbool true)
           else if k = "user" then some (.vstr "") else none

/-- A cache holding a valid token under the identity C7 as written
would derive for `pUserEmpty` (explicit username `""`). -/
def cUser : Cache :=
  fun k => if k = (.vstr "localhost", .vint 5432, .vstr "", .vnone)
           then some ("cached", 570) else none

/-- Counterexample to C7 as stated: with OS user `"postgres"` and the
input `{use_iam_auth: true, user: ""}`, the claim says the derived
username is the explicit user parameter `""`; the code derives
`"postgres"`, and a resolver call ignores the valid token cached under
the `""`-username identity and generates a fresh one instead. -/
theorem identity_derivation_counterexample :
    derive_cache_key "postgres" (pUserEmpty.erase "use_iam_auth")
      = (.vstr "localhost", .vint 5432, .vstr "postgres", .vnone) ∧
    Value.vstr "postgres" ≠ .vstr "" ∧
    ((get_aws_connection_params env0 "postgres" 0 cUser pUserEmpty).1.toOption.map
        (fun out => out.get "password")) = some (some (.vstr "T")) ∧
    (Value.vstr "T") ≠ .vstr "cached" := by
  refine ⟨by decide, by decide, by decide, by decide⟩

/-- A cache holding an unexpired empty-string token under `key0`. -/
def cEmptyTok : Cache := fun k => if k = key0 then some ("", 570) else none

/-- A cache holding a token under `key0` that expires at time 570. -/
def cOld : Cache := fun k => if k = key0 then some ("old", 570) else none

/-- C10: an unexpired cache entry whose token is the empty string (the
only falsy `str`) is treated as a cache miss: the resolver invokes
token generation and overwrites the entry with the fresh token and a
fresh expiry, because line 70 tests the cached token's truthiness
rather than its mere presence. -/
theorem falsy_cached_token_regenerates {ε χ : Type} (env : AwsEnv ε χ)
    (osUser : String) (now : Int) (c : Cache) (params : Params)
    (cl : χ) (tok : String) (e : Int)
    (hen : pyTruthy (params.get "use_iam_auth") = true)
    (hc : c (derive_cache_key osUser (params.erase "use_iam_auth")) = some ("", e))
    (hlt : now < e)
    (hcl : env.get_rds_client
        (derive_cache_key osUser (params.erase "use_iam_auth")).2.2.2 = .ok cl)
    (hgen : env.generate_db_auth_token cl
        (derive_cache_key osUser (params.erase "use_iam_auth")).1
        (derive_cache_key osUser (params.erase "use_iam_auth")).2.1
        (derive_cache_key osUser (params.erase "use_iam_auth")).2.2.1 = .ok tok) :
    get_aws_connection_params env osUser now c params
      = (.ok ((stripped params).insert "password" (.vstr tok)),
         fun k => if k = derive_cache_key osUser (params.erase "use_iam_auth")
                  then some (tok, now + TOKEN_EXPIRATION_TIME - 30) else c k) := by
  have hget : TokenCache.get_token now c
      (derive_cache_key osUser (params.erase "use_iam_auth")) = (some "", c) :=
    TokenCache.get_token_hit now c _ "" e hc hlt
  have hmain := gacp_miss_gen_ok env osUser now c params cl tok hen
    (by rw [hget]; rfl) hcl hgen
  rw [hmain, hget]
  rfl

/-- Witness for C10: a cached but empty token under `key0`, still
unexpired at time 0, is replaced by the freshly generated `"T"`. -/
theorem falsy_cached_token_regenerates_witness :
    get_aws_connection_params env0 "alice" 0 cEmptyTok p0
      = (.ok ((stripped p0).insert "password" (.vstr "T")),
         fun k => if k = derive_cache_key "alice" (p0.erase "use_iam_auth")
                  then some ("T", 0 + TOKEN_EXPIRATION_TIME - 30) else cEmptyTok k) :=
  falsy_cached_token_regenerates env0 "alice" 0 cEmptyTok p0 () "T" 570
    (by decide) (by decide) (by decide) rfl rfl

/-- C4: once the current time has advanced past a cached entry's
expiry, the next enabled call for the same identity reaches token
generation again, stores the newly generated token with the new expiry
`now + TOKEN_EXPIRATION_TIME - 30`, and sets `password` to the new
token. -/
theorem expiry_triggers_regeneration {ε χ : Type} (env : AwsEnv ε χ)
    (osUser : String) (now : Int) (c : Cache) (params : Params)
    (cl : χ) (tok t0 : String) (e0 : Int)
    (hen : pyTruthy (params.get "use_iam_auth") = true)
    (hc : c (derive_cache_key osUser (params.erase "use_iam_auth")) = some (t0, e0))
    (hpast : e0 < now)
    (hcl : env.get_rds_client
        (derive_cache_key osUser (params.erase "use_iam_auth")).2.2.2 = .ok cl)
    (hgen : env.generate_db_auth_token cl
        (derive_cache_key osUser (params.erase "use_iam_auth")).1
        (derive_cache_key osUser (params.erase "use_iam_auth")).2.1
        (derive_cache_key osUser (params.erase "use_iam_auth")).2.2.1 = .ok tok) :
    get_aws_connection_params env osUser now c params
      = (.ok ((stripped params).insert "password" (.vstr tok)),
         fun k => if k = derive_cache_key osUser (params.erase "use_iam_auth")
                  then some (tok, now + TOKEN_EXPIRATION_TIME - 30) else c k) := by
  have hnlt : ¬ now < e0 := by omega
  have hget : TokenCache.get_token now c
      (derive_cache_key osUser (params.erase "use_iam_auth"))
      = (none, c.erase (derive_cache_key osUser (params.erase "use_iam_auth"))) := by
    unfold TokenCache.get_token
    rw [hc]
    simp [hnlt]
  have hmain := gacp_miss_gen_ok env osUser now c params cl tok hen
    (by rw [hget]; rfl) hcl hgen
  rw [hmain]
  have hsnd : (TokenCache.get_token now c
      (derive_cache_key osUser (params.erase "use_iam_auth"))).2
      = c.erase (derive_cache_key osUser (params.erase "use_iam_auth")) := by
    rw [hget]
  rw [hsnd]
  have hset : TokenCache.set_token now
      (c.erase (derive_cache_key osUser (params.erase "use_iam_auth")))
      (derive_cache_key osUser (params.erase "use_iam_auth")) tok
      = fun k => if k = derive_cache_key osUser (params.erase "use_iam_auth")
                 then some (tok, now + TOKEN_EXPIRATION_TIME - 30) else c k := by
    funext k
    by_cases hk : k = derive_cache_key osUser (params.erase "use_iam_auth") <;>
      simp [TokenCache.set_token, Cache.erase, hk]
  rw [hset]

/-- Witness for C4: the entry under `key0` expired at 570; at time 600
the resolver regenerates, stores `("T", 600 + 570)` and returns the
new token as password. -/
theorem expiry_triggers_regeneration_witness :
    get_aws_connection_params env0 "alice" 600 cOld p0
      = (.ok ((stripped p0).insert "password" (.vstr "T")),
         fun k => if k = derive_cache_key "alice" (p0.erase "use_iam_auth")
                  then some ("T", 600 + TOKEN_EXPIRATION_TIME - 30) else cOld k) :=
  expiry_triggers_regeneration env0 "alice" 600 cOld p0 () "T" "old" 570
    (by decide) (by decide) (by decide) rfl rfl

/-- Properties of the dict the enabled path returns: password set,
consumed flags gone, everything else as in the input. -/
theorem stripped_insert_props (params : Params) (tok : String) :
    ((stripped params).insert "password" (.vstr tok)).get "password"
      = some (.vstr tok) ∧
    ((stripped params).insert "password" (.vstr tok)).get "use_iam_auth" = none ∧
    ((stripped params).insert "password" (.vstr tok)).get "region_name" = none ∧
    ∀ k, k ≠ "use_iam_auth" → k ≠ "region_name" → k ≠ "password" →
      ((stripped params).insert "password" (.vstr tok)).get k = params.get k := by
  refine ⟨by simp, by simp [stripped], by simp [stripped],
    fun k h1 h2 h3 => by simp [stripped, h1, h2, h3]⟩

/-- C8: a successful enabled call returns exactly the input dict with
`use_iam_auth` and `region_name` removed and `password` set (or
overwritten) to the obtained token; every other binding is unchanged.
The source copies the dict at line 54, so the embedding is pure in the
input and the caller's dict cannot be mutated. -/
theorem enabled_path_frame {ε χ : Type} (env : AwsEnv ε χ) (osUser : String)
    (now : Int) (c : Cache) (params out : Params) (c' : Cache)
    (hen : pyTruthy (params.get "use_iam_auth") = true)
    (hcall : get_aws_connection_params env osUser now c params = (.ok out, c')) :
    ∃ tok : String,
      out = (stripped params).insert "password" (.vstr tok) ∧
      out.get "password" = some (.vstr tok) ∧
      out.get "use_iam_auth" = none ∧
      out.get "region_name" = none ∧
      ∀ k, k ≠ "use_iam_auth" → k ≠ "region_name" → k ≠ "password" →
        out.get k = params.get k := by
  by_cases hhit : pyTruthyStr (TokenCache.get_token now c
      (derive_cache_key osUser (params.erase "use_iam_auth"))).1 = true
  · rcases hm : (TokenCache.get_token now c
        (derive_cache_key osUser (params.erase "use_iam_auth"))).1 with _ | t
    · rw [hm] at hhit; simp [pyTruthyStr] at hhit
    · have ht : t ≠ "" := by
        rw [hm] at hhit; simpa [pyTruthyStr] using hhit
      rw [gacp_hit env osUser now c params t hen hm ht] at hcall
      simp only [Prod.mk.injEq, Except.ok.injEq] at hcall
      obtain ⟨h1, -⟩ := hcall
      subst h1
      obtain ⟨q1, q2, q3, q4⟩ := stripped_insert_props params t
      exact ⟨t, rfl, q1, q2, q3, q4⟩
  · have hmiss : pyTruthyStr (TokenCache.get_token now c
        (derive_cache_key osUser (params.erase "use_iam_auth"))).1 = false := by
      revert hhit
      cases pyTruthyStr (TokenCache.get_token now c
        (derive_cache_key osUser (params.erase "use_iam_auth"))).1 <;> simp
    rcases hcl : env.get_rds_client
        (derive_cache_key osUser (params.erase "use_iam_auth")).2.2.2 with e | cl
    · rw [gacp_miss_client_err env osUser now c params e hen hmiss hcl] at hcall
      simp at hcall
    · rcases hgen : env.generate_db_auth_token cl
          (derive_cache_key osUser (params.erase "use_iam_auth")).1
          (derive_cache_key osUser (params.erase "use_iam_auth")).2.1
          (derive_cache_key osUser (params.erase "use_iam_auth")).2.2.1 with e | tok
      · rw [gacp_miss_gen_err env osUser now c params cl e hen hmiss hcl hgen] at hcall
        simp at hcall
      · rw [gacp_miss_gen_ok env osUser now c params cl tok hen hmiss hcl hgen] at hcall
        simp only [Prod.mk.injEq, Except.ok.injEq] at hcall
        obtain ⟨h1, -⟩ := hcall
        subst h1
        obtain ⟨q1, q2, q3, q4⟩ := stripped_insert_props params tok
        exact ⟨tok, rfl, q1, q2, q3, q4⟩

/-- Witness for C8: the successful call on `{use_iam_auth: true}` from
the empty cache returns the dict `password ↦ "T"` with the two consumed
keys absent. -/
theorem enabled_path_frame_witness :
    ∃ tok : String,
      (stripped p0).insert "password" (.vstr "T")
        = (stripped p0).insert "password" (.vstr tok) ∧
      ((stripped p0).insert "password" (.vstr "T")).get "password"
        = some (.vstr tok) ∧
      ((stripped p0).insert "password" (.vstr "T")).get "use_iam_auth" = none ∧
      ((stripped p0).insert "password" (.vstr "T")).get "region_name" = none ∧
      ∀ k, k ≠ "use_iam_auth" → k ≠ "region_name" → k ≠ "password" →
        ((stripped p0).insert "password" (.vstr "T")).get k = p0.get k :=
  enabled_path_frame env0 "alice" 0 Cache.empty p0
    ((stripped p0).insert "password" (.vstr "T")) _ (by decide)
    (gacp_miss_gen_ok env0 "alice" 0 Cache.empty p0 () "T"
      (by decide) (by decide) rfl rfl)

/-- An oracle whose client construction and token generation both
fail. -/
def envFail : AwsEnv Unit Unit :=
  { get_rds_client := fun _ => .error ()
    generate_db_auth_token := fun _ _ _ _ => .error () }

/-- C9 (amended: the failing call writes nothing to the cache — no
entry is added or replaced — but the lookup that preceded the failure
may already have evicted a stale entry for the identity, so the cache
is not literally unchanged in that case): on an enabled cache miss
with a failing client construction or token generation, the error is
propagated unmodified, the post-call cache is exactly the post-lookup
cache, and every entry is either as before or evicted. -/
theorem error_propagation_no_store {ε χ : Type} (env : AwsEnv ε χ)
    (osUser : String) (now : Int) (c : Cache) (params : Params) (e : ε)
    (hen : pyTruthy (params.get "use_iam_auth") = true)
    (hmiss : pyTruthyStr (TokenCache.get_token now c
        (derive_cache_key osUser (params.erase "use_iam_auth"))).1 = false)
    (herr : env.get_rds_client
          (derive_cache_key osUser (params.erase "use_iam_auth")).2.2.2 = .error e ∨
        ∃ cl, env.get_rds_client
            (derive_cache_key osUser (params.erase "use_iam_auth")).2.2.2 = .ok cl ∧
          env.generate_db_auth_token cl
            (derive_cache_key osUser (params.erase "use_iam_auth")).1
            (derive_cache_key osUser (params.erase "use_iam_auth")).2.1
            (derive_cache_key osUser (params.erase "use_iam_auth")).2.2.1
            = .error e) :
    get_aws_connection_params env osUser now c params
      = (.error e, (TokenCache.get_token now c
          (derive_cache_key osUser (params.erase "use_iam_auth"))).2) ∧
    ∀ k, (TokenCache.get_token now c
        (derive_cache_key osUser (params.erase "use_iam_auth"))).2 k = c k ∨
      ((TokenCache.get_token now c
          (derive_cache_key osUser (params.erase "use_iam_auth"))).2 k = none ∧
       k = derive_cache_key osUser (params.erase "use_iam_auth")) := by
  constructor
  · rcases herr with hcl | ⟨cl, hcl, hgen⟩
    · exact gacp_miss_client_err env osUser now c params e hen hmiss hcl
    · exact gacp_miss_gen_err env osUser now c params cl e hen hmiss hcl hgen
  · intro k
    rcases hc : c (derive_cache_key osUser (params.erase "use_iam_auth"))
      with _ | ⟨t, ex⟩
    · left; simp [TokenCache.get_token, hc]
    · by_cases hlt : now < ex
      · left; simp [TokenCache.get_token, hc, hlt]
      · by_cases hk : k = derive_cache_key osUser (params.erase "use_iam_auth")
        · right; simp [TokenCache.get_token, hc, hlt, Cache.erase, hk]
        · left; simp [TokenCache.get_token, hc, hlt, Cache.erase, hk]

/-- Counterexample to C9 as stated: at time 600 the entry under `key0`
(expiry 570) is stale; the lookup evicts it, then generation fails —
the error propagates but the cache is *not* left unchanged: the entry
for the failing identity is gone. -/
theorem error_propagation_counterexample :
    (get_aws_connection_params envFail "alice" 600 cOld p0).1 = .error () ∧
    (get_aws_connection_params envFail "alice" 600 cOld p0).2 key0 = none ∧
    cOld key0 = some ("old", 570) :=
  ⟨rfl, by decide, by decide⟩

/-- Witness for C9: the same failing scenario, through the amended
theorem. -/
theorem error_propagation_no_store_witness :
    get_aws_connection_params envFail "alice" 600 cOld p0
      = (.error (), (TokenCache.get_token 600 cOld
          (derive_cache_key "alice" (p0.erase "use_iam_auth"))).2) ∧
    ∀ k, (TokenCache.get_token 600 cOld
        (derive_cache_key "alice" (p0.erase "use_iam_auth"))).2 k = cOld k ∨
      ((TokenCache.get_token 600 cOld
          (derive_cache_key "alice" (p0.erase "use_iam_auth"))).2 k = none ∧
       k = derive_cache_key "alice" (p0.erase "use_iam_auth")) :=
  error_propagation_no_store envFail "alice" 600 cOld p0 ()
    (by decide) (by decide) (Or.inl rfl)

/-- C1 (amended: the produced token must be nonempty; an empty-string
token is falsy and the hit test of line 70 treats it as a miss): after
a successful enabled resolution whose output `password` is the
nonempty token `T`, the cache holds `T` under the derived identity
with some expiry `e`, and a later enabled call with the same derived
identity at any time strictly before `e` — under *any* oracle, hence
without consulting client construction or token generation — returns
`T` as `password` and leaves the cache exactly as it was. -/
theorem cache_hit_avoids_regeneration {ε χ ε' χ' : Type} (env : AwsEnv ε χ)
    (env' : AwsEnv ε' χ') (osUser : String) (t1 t2 : Int) (c : Cache)
    (params1 params2 out1 : Params) (c1 : Cache) (T : String)
    (hen1 : pyTruthy (params1.get "use_iam_auth") = true)
    (hcall : get_aws_connection_params env osUser t1 c params1 = (.ok out1, c1))
    (hpw : out1.get "password" = some (.vstr T))
    (hT : T ≠ "")
    (hen2 : pyTruthy (params2.get "use_iam_auth") = true)
    (hkey : derive_cache_key osUser (params2.erase "use_iam_auth")
        = derive_cache_key osUser (params1.erase "use_iam_auth")) :
    ∃ e : Int,
      c1 (derive_cache_key osUser (params1.erase "use_iam_auth")) = some (T, e) ∧
      (t2 < e →
        get_aws_connection_params env' osUser t2 c1 params2
          = (.ok ((stripped params2).insert "password" (.vstr T)), c1)) := by
  have hstored : ∃ e : Int,
      c1 (derive_cache_key osUser (params1.erase "use_iam_auth")) = some (T, e) := by
    by_cases hhit : pyTruthyStr (TokenCache.get_token t1 c
        (derive_cache_key osUser (params1.erase "use_iam_auth"))).1 = true
    · rcases hm : (TokenCache.get_token t1 c
          (derive_cache_key osUser (params1.erase "use_iam_auth"))).1 with _ | t
      · rw [hm] at hhit; simp [pyTruthyStr] at hhit
      · have ht : t ≠ "" := by
          rw [hm] at hhit; simpa [pyTruthyStr] using hhit
        rw [gacp_hit env osUser t1 c params1 t hen1 hm ht] at hcall
        simp only [Prod.mk.injEq, Except.ok.injEq] at hcall
        obtain ⟨h1, h2⟩ := hcall
        obtain ⟨e, hce, -, -⟩ := TokenCache.get_token_fst_some t1 c
          (derive_cache_key osUser (params1.erase "use_iam_auth")) t hm
        have htT : t = T := by
          rw [← h1] at hpw
          simpa using hpw
        exact ⟨e, by rw [← h2, hce, htT]⟩
    · have hmiss : pyTruthyStr (TokenCache.get_token t1 c
          (derive_cache_key osUser (params1.erase "use_iam_auth"))).1 = false := by
        revert hhit
        cases pyTruthyStr (TokenCache.get_token t1 c
          (derive_cache_key osUser (params1.erase "use_iam_auth"))).1 <;> simp
      rcases hcl : env.get_rds_client
          (derive_cache_key osUser (params1.erase "use_iam_auth")).2.2.2 with e | cl
      · rw [gacp_miss_client_err env osUser t1 c params1 e hen1 hmiss hcl] at hcall
        simp at hcall
      · rcases hgen : env.generate_db_auth_token cl
            (derive_cache_key osUser (params1.erase "use_iam_auth")).1
            (derive_cache_key osUser (params1.erase "use_iam_auth")).2.1
            (derive_cache_key osUser (params1.erase "use_iam_auth")).2.2.1
            with e | tok
        · rw [gacp_miss_gen_err env osUser t1 c params1 cl e hen1 hmiss hcl hgen]
            at hcall
          simp at hcall
        · rw [gacp_miss_gen_ok env osUser t1 c params1 cl tok hen1 hmiss hcl hgen]
            at hcall
          simp only [Prod.mk.injEq, Except.ok.injEq] at hcall
          obtain ⟨h1, h2⟩ := hcall
          have htT : tok = T := by
            rw [← h1] at hpw
            simpa using hpw
          refine ⟨t1 + TOKEN_EXPIRATION_TIME - 30, ?_⟩
          rw [← h2, htT]
          simp [TokenCache.set_token]
  obtain ⟨e, hce⟩ := hstored
  refine ⟨e, hce, fun hlt2 => ?_⟩
  have hm2 : (TokenCache.get_token t2 c1
      (derive_cache_key osUser (params2.erase "use_iam_auth"))).1 = some T := by
    rw [hkey, TokenCache.get_token_hit t2 c1 _ T e hce hlt2]
  exact gacp_hit env' osUser t2 c1 params2 T hen2 hm2 hT

/-- An oracle whose token generation succeeds but returns the empty
string. -/
def envE : AwsEnv Unit Unit :=
  { get_rds_client := fun _ => .ok ()
    generate_db_auth_token := fun _ _ _ _ => .ok "" }

/-- Counterexample to C1 as stated: the first call succeeds and
produces the token `""` (stored with expiry 570), yet a second call at
time 100 < 570 regenerates and rewrites the cache entry (new expiry
670) instead of leaving the cache unchanged. -/
theorem cache_hit_counterexample :
    ((get_aws_connection_params envE "alice" 0 Cache.empty p0).1.toOption.map
        (fun o => o.get "password")) = some (some (.vstr "")) ∧
    (get_aws_connection_params envE "alice" 0 Cache.empty p0).2 key0
      = some ("", 570) ∧
    (100 : Int) < 570 ∧
    (get_aws_connection_params envE "alice" 100
        (get_aws_connection_params envE "alice" 0 Cache.empty p0).2 p0).2 key0
      = some ("", 670) ∧
    (some (("" : String), (670 : Int)) : Option (String × Int))
      ≠ some ("", 570) := by
  refine ⟨by decide, by decide, by decide, by decide, by decide⟩

/-- The cache after the witness's first call: `"T"` stored under the
default identity with expiry 570. -/
def c1w : Cache :=
  TokenCache.set_token 0
    (TokenCache.get_token 0 Cache.empty
      (derive_cache_key "alice" (p0.erase "use_iam_auth"))).2
    (derive_cache_key "alice" (p0.erase "use_iam_auth")) "T"

/-- Witness for C1: a first call from the empty cache produces `"T"`;
the theorem then yields the stored expiry and the guarantee for a
second call at time 100. -/
theorem cache_hit_avoids_regeneration_witness :
    ∃ e : Int,
      c1w (derive_cache_key "alice" (p0.erase "use_iam_auth")) = some ("T", e) ∧
      ((100 : Int) < e →
        get_aws_connection_params env0 "alice" 100 c1w p0
          = (.ok ((stripped p0).insert "password" (.vstr "T")), c1w)) :=
  cache_hit_avoids_regeneration env0 env0 "alice" 0 100 Cache.empty p0 p0
    ((stripped p0).insert "password" (.vstr "T")) c1w "T" (by decide)
    (gacp_miss_gen_ok env0 "alice" 0 Cache.empty p0 () "T"
      (by decide) (by decide) rfl rfl)
    (by decide) (by decide) (by decide) rfl

end DbWrapper
